import Mathlib

set_option maxRecDepth 1000000

/-!
# Billing & Entitlement Engine — shallow embedding and verification

A shallow embedding of the billing subsystem of the backupdoc API
(`src/payment/routes.py`, `src/payment/models.py`, `src/predict/routes.py`,
`src/auth/model.py`), together with theorems settling the specification
claims about it.

Modelling conventions:
* Database rows become Lean structures; the database session becomes an
  explicit `DB` record threaded through each route handler.  A SQLAlchemy
  `db.commit()` is a commit point; `verify_payment` returns the list of
  committed snapshots so that intermediate (partially updated) states are
  observable in theorems.
* `datetime` values are modelled as `Int` seconds; `timedelta(days = n)`
  is `n * 86400`.
* Monetary amounts and coupon values are integer minor units (`Nat`), as the
  gateway reports amounts in paise; Python `int(x)` on a non-negative
  integer-valued expression is the identity, and `int(a * v / 100)` on
  naturals is floor division `a * v / 100`.
* The Razorpay client is an external collaborator: its plan table and the
  set of remote subscriptions it has created are modelled by the `Gateway`
  record.  `client.plan.fetch` / `client.subscription.fetch` raising (an
  unknown id) is modelled by a lookup returning `none`, which the handler
  surfaces as its generic 500 path (`gatewayError`).
* Python compares a `CouponType` enum member with strings in two ways in the
  source: `coupon.type == "percentage"` (plain equality between an enum
  member and a `str`, which is always `False` in Python) and
  `str(coupon.type) == "CouponType.PERCENTAGE"`.  Both are embedded through
  `pyStr`, the `str()` rendering of the enum member (`"CouponType.PERCENTAGE"`
  / `"CouponType.AMOUNT"`), so `pyStr c.type == "percentage"` is `false` for
  both members — exactly the Python truth value of `coupon.type == "percentage"`.
* HMAC-SHA256 is implemented in full (bytes as `Nat` lists) so that the
  signature gate of `verify_payment` is the real computation of the source.
-/

namespace Backupdoc

/-! ## SHA-256 and HMAC (hmac.new(key, msg, hashlib.sha256).hexdigest()) -/

/-- Truncation to 32 bits. -/
def m32 (n : Nat) : Nat := n % 4294967296

/-- 32-bit rotate right. -/
def rotr (x n : Nat) : Nat := m32 ((x >>> n) ||| (x <<< (32 - n)))

/-- Logical shift right. -/
def shr (x n : Nat) : Nat := x >>> n

/-- Bitwise xor on naturals. -/
def bxor (a b : Nat) : Nat := Nat.xor a b

/-- SHA-256 choice function; `4294967295 - x` is 32-bit complement. -/
def ch (x y z : Nat) : Nat := bxor (Nat.land x y) (Nat.land (m32 (4294967295 - x)) z)

/-- SHA-256 majority function. -/
def maj (x y z : Nat) : Nat := bxor (bxor (Nat.land x y) (Nat.land x z)) (Nat.land y z)

def bigSigma0 (x : Nat) : Nat := bxor (bxor (rotr x 2) (rotr x 13)) (rotr x 22)

def bigSigma1 (x : Nat) : Nat := bxor (bxor (rotr x 6) (rotr x 11)) (rotr x 25)

def smallSigma0 (x : Nat) : Nat := bxor (bxor (rotr x 7) (rotr x 18)) (shr x 3)

def smallSigma1 (x : Nat) : Nat := bxor (bxor (rotr x 17) (rotr x 19)) (shr x 10)

/-- The SHA-256 round constants (FIPS 180-4, written in decimal). -/
def K : List Nat :=
  [1116352408, 1899447441, 3049323471, 3921009573, 961987163,
   1508970993, 2453635748, 2870763221, 3624381080, 310598401,
   607225278, 1426881987, 1925078388, 2162078206, 2614888103,
   3248222580, 3835390401, 4022224774, 264347078, 604807628,
   770255983, 1249150122, 1555081692, 1996064986, 2554220882,
   2821834349, 2952996808, 3210313671, 3336571891, 3584528711,
   113926993, 338241895, 666307205, 773529912, 1294757372,
   1396182291, 1695183700, 1986661051, 2177026350, 2456956037,
   2730485921, 2820302411, 3259730800, 3345764771, 3516065817,
   3600352804, 4094571909, 275423344, 430227734, 506948616,
   659060556, 883997877, 958139571, 1322822218, 1537002063,
   1747873779, 1955562222, 2024104815, 2227730452, 2361852424,
   2428436474, 2756734187, 3204031479, 3329325298]

/-- The SHA-256 initial hash state (decimal). -/
def H0 : List Nat :=
  [1779033703, 3144134277, 1013904242, 2773480762, 1359893119,
   2600822924, 528734635, 1541459225]

/-- SHA-256 padding: append `0x80`, zeros, and the 64-bit big-endian bit length. -/
def padMessage (msg : List Nat) : List Nat :=
  let len := msg.length
  let bitLen := len * 8
  let zeros := (64 - ((len + 9) % 64)) % 64
  msg ++ [0x80] ++ List.replicate zeros 0 ++
    [(bitLen >>> 56) % 256, (bitLen >>> 48) % 256, (bitLen >>> 40) % 256, (bitLen >>> 32) % 256,
     (bitLen >>> 24) % 256, (bitLen >>> 16) % 256, (bitLen >>> 8) % 256, bitLen % 256]

/-- Group bytes into 32-bit big-endian words. -/
def toWords : List Nat → List Nat
  | a :: b :: c :: d :: rest => (a * 16777216 + b * 65536 + c * 256 + d) :: toWords rest
  | _ => []

/-- Chunking with explicit fuel, so the kernel can reduce it. -/
def toBlocksAux : Nat → List Nat → List (List Nat)
  | 0, _ => []
  | _ + 1, [] => []
  | n + 1, ws => ws.take 16 :: toBlocksAux n (ws.drop 16)

/-- Split a word list into 16-word (512-bit) blocks. -/
def toBlocks (ws : List Nat) : List (List Nat) := toBlocksAux ws.length ws

/-- Extend a 16-word block towards the 64-word message schedule (`n` extension steps). -/
def schedule (block : List Nat) : Nat → List Nat
  | 0 => block
  | n + 1 =>
    let w := schedule block n
    let i := w.length
    if i ≥ 64 then w
    else w ++ [m32 (smallSigma1 (w.getD (i - 2) 0) + w.getD (i - 7) 0 +
                    smallSigma0 (w.getD (i - 15) 0) + w.getD (i - 16) 0)]

/-- One SHA-256 round on the eight-word working state. -/
def round (st : List Nat) (kw : Nat × Nat) : List Nat :=
  match st with
  | [a, b, c, d, e, f, g, h] =>
    let t1 := m32 (h + bigSigma1 e + ch e f g + kw.1 + kw.2)
    let t2 := m32 (bigSigma0 a + maj a b c)
    [m32 (t1 + t2), a, b, c, m32 (d + t1), e, f, g]
  | st => st

/-- SHA-256 compression of one block into the running hash. -/
def compress (h : List Nat) (block : List Nat) : List Nat :=
  let w := schedule block 48
  let st := (K.zip w).foldl round h
  (h.zip st).map fun p => m32 (p.1 + p.2)

/-- SHA-256 of a byte list. -/
def sha256 (msg : List Nat) : List Nat :=
  let blocks := toBlocks (toWords (padMessage msg))
  let h := blocks.foldl compress H0
  h.flatMap fun w => [(w >>> 24) % 256, (w >>> 16) % 256, (w >>> 8) % 256, w % 256]

/-- Lowercase hex digit. -/
def hexChar (n : Nat) : Char :=
  if n < 10 then Char.ofNat (48 + n) else Char.ofNat (87 + n)

/-- Lowercase hex rendering of a byte list (`.hexdigest()`). -/
def toHex (bs : List Nat) : String :=
  String.mk (bs.flatMap fun b => [hexChar (b / 16), hexChar (b % 16)])

/-- Bytes of an ASCII string (`.encode('utf-8')` for the ASCII ids involved). -/
def strBytes (s : String) : List Nat := s.data.map Char.toNat

/-- Python `str.upper()` for the ASCII codes involved (char-wise upcasing). -/
def pyUpper (s : String) : String := String.mk (s.data.map Char.toUpper)

/-- Python `str.lower()` for the ASCII names involved (char-wise downcasing). -/
def pyLower (s : String) : String := String.mk (s.data.map Char.toLower)

/-- HMAC construction over SHA-256, block size 64. -/
def hmacSha256 (key msg : List Nat) : List Nat :=
  let k0 := if key.length > 64 then sha256 key else key
  let kp := k0 ++ List.replicate (64 - k0.length) 0
  let ipad := kp.map fun b => bxor b 0x36
  let opad := kp.map fun b => bxor b 0x5c
  sha256 (opad ++ sha256 (ipad ++ msg))

/-- `hmac.new(secret.encode(), msg.encode(), hashlib.sha256).hexdigest()`. -/
def hmacHex (key msg : String) : String := toHex (hmacSha256 (strBytes key) (strBytes msg))

/-! ## Data model (src/payment/models.py, src/auth/model.py) -/

/-- `PaymentStatus` enum. -/
inductive PaymentStatus where
  | pending
  | paid
  | failed
  | refunded
  | cancelled
deriving DecidableEq, Repr

/-- `CouponType` enum. -/
inductive CouponType where
  | percentage
  | amount
deriving DecidableEq, Repr

/-- `SubscriptionStatus` enum. -/
inductive SubscriptionStatus where
  | active
  | inactive
  | expired
  | cancelled
  | pending
deriving DecidableEq, Repr

/-- Python `str()` of a `CouponType` enum member.  Comparing an enum member
with a plain string (`coupon.type == "percentage"`) is always `False` in
Python; rendering through `pyStr` makes that comparison a string comparison
that is likewise false for both members, and makes
`str(coupon.type) == "CouponType.PERCENTAGE"` true exactly for the
percentage member. -/
def pyStr : CouponType → String
  | .percentage => "CouponType.PERCENTAGE"
  | .amount => "CouponType.AMOUNT"

/-- A `coupons` row. -/
structure Coupon where
  id : String
  code : String
  type : CouponType
  value : Nat
  max_uses : Option Nat
  used_count : Nat
  valid_from : Int
  valid_until : Option Int
  is_active : Bool
deriving DecidableEq, Repr

/-- An `orders` row (the fields the billing flow touches). -/
structure Order where
  id : String
  user : String
  plan : String
  amount : Nat
  discount_amount : Nat
  final_amount : Int
  payment_id : String
  status : PaymentStatus
deriving DecidableEq, Repr

/-- A `subscriptions` row. -/
structure Subscription where
  id : String
  user : String
  order : String
  start_date : Int
  end_date : Int
  status : SubscriptionStatus
deriving DecidableEq, Repr

/-- A `users` row (the fields the billing and prediction flows touch). -/
structure UserAccount where
  id : String
  user_type : String
  account_type : String
  credits : Int
  credit_expiry : Option Int
  last_credit_updated_at : Option Int
deriving DecidableEq, Repr

/-- The relational state: one list per table.  `coupon_users` holds
`(coupon_id, user_id)` pairs (the `CouponUsers` association table). -/
structure DB where
  users : List UserAccount
  orders : List Order
  subscriptions : List Subscription
  coupons : List Coupon
  coupon_users : List (String × String)
deriving DecidableEq, Repr

/-- A subscription intent created at the payment gateway
(`client.subscription.create`): the fields `verify_payment` later fetches. -/
structure GatewaySub where
  id : String
  plan_id : String
  quantity : Nat
  total_count : Nat
deriving DecidableEq, Repr

/-- The external payment gateway: its plan price table
(`client.plan.fetch(pid)["item"]["amount"]`) and the subscriptions created
so far. -/
structure Gateway where
  plan_amounts : List (String × Nat)
  subs : List GatewaySub
deriving DecidableEq, Repr

/-- Database plus gateway. -/
structure World where
  db : DB
  gateway : Gateway
deriving DecidableEq, Repr

/-- Process configuration (`decouple.config` values). -/
structure Config where
  razorpay_key_secret : String
  doctor_plan_id : String
  premium_plan_id : String
deriving DecidableEq, Repr

/-- The module-level `plans` list of payment/routes.py: name and gateway
plan id. -/
def plans (cfg : Config) : List (String × String) :=
  [("doctor", cfg.doctor_plan_id), ("premium", cfg.premium_plan_id)]

/-- Association-list lookup for the gateway plan price table. -/
def lookupAmount (table : List (String × Nat)) (pid : String) : Option Nat :=
  (table.find? (fun p => p.1 == pid)).map (·.2)

/-- `timedelta(days = n)` added to an `Int`-seconds instant. -/
def addDays (t : Int) (d : Nat) : Int := t + (d : Int) * 86400

/-- Replace the status of every order row with the given primary key. -/
def setOrderStatus (db : DB) (oid : String) (st : PaymentStatus) : DB :=
  { db with orders := db.orders.map fun o => if o.id == oid then { o with status := st } else o }

/-- Write back a user row by primary key (`db.add(user); db.commit()`). -/
def setUser (db : DB) (u : UserAccount) : DB :=
  { db with users := db.users.map fun x => if x.id == u.id then u else x }

/-! ## Request schemas (src/payment/schema.py) -/

/-- `PaymentCreateSchema`. -/
structure PaymentCreateSchema where
  plan : String
  coupon : Option String
  plan_type : String
deriving DecidableEq, Repr

/-- `PaymentVerifySchema`. -/
structure PaymentVerifySchema where
  razorpay_payment_id : String
  razorpay_subscription_id : String
  razorpay_signature : String
deriving DecidableEq, Repr

/-! ## POST /payment/create — `subscribe` (routes.py lines 322-426) -/

/-- Outcome of `subscribe`, one constructor per distinct response. -/
inductive SubscribeResult where
  | unauthorized
  | userNotFound
  | planNotFound
  | alreadyOnHighestPlan
  | canOnlyUpgradeToPremium
  | invalidOrExpiredCoupon
  | gatewayError
  | success (subscription_id : String) (amount : Int)
deriving DecidableEq, Repr

/-- The coupon filter of `subscribe` (lines 359-363): exact code match,
active, and `valid_until > now` — a SQL comparison, so a NULL `valid_until`
fails it. -/
def subscribeCouponFilter (now : Int) (code : String) (c : Coupon) : Bool :=
  c.code == code && c.is_active &&
    (match c.valid_until with
     | some t => decide (now < t)
     | none => false)

/-- `subscribe`: create a payment for a plan purchase/upgrade.
`freshHandle` is the id the gateway assigns to the created subscription
intent, `freshOrderId` the generated uuid of the new order row.  The two
upgrade-path guards fire only under `active_subscription` (line 348);
writing them as one flattened condition each preserves the source's
control flow. -/
def subscribe (cfg : Config) (now : Int) (freshHandle freshOrderId : String)
    (current_user : Option String) (payment : PaymentCreateSchema) (w : World) :
    SubscribeResult × World :=
  match current_user with
  | none => (.unauthorized, w)
  | some uid =>
    match w.db.users.find? (fun u => u.id == uid) with
    | none => (.userNotFound, w)
    | some user =>
      let active_subscription := w.db.subscriptions.find?
        (fun s => s.user == user.id && s.status == SubscriptionStatus.active)
      match (plans cfg).find? (fun p => pyLower p.1 == pyLower payment.plan) with
      | none => (.planNotFound, w)
      | some plan =>
        if active_subscription.isSome && user.account_type == "premium" then
          (.alreadyOnHighestPlan, w)
        else if active_subscription.isSome && user.account_type == "doctor" &&
            pyLower payment.plan != "premium" then
          (.canOnlyUpgradeToPremium, w)
        else
          let couponStep : Option (Option Coupon) :=
            match payment.coupon with
            | none => some none
            | some code =>
              match w.db.coupons.find? (subscribeCouponFilter now code) with
              | none => none
              | some c => some (some c)
          match couponStep with
          | none => (.invalidOrExpiredCoupon, w)
          | some coupon =>
            match lookupAmount w.gateway.plan_amounts plan.2 with
            | none => (.gatewayError, w)
            | some amount =>
              let discount_amount : Nat :=
                match coupon with
                | none => 0
                | some c =>
                  if pyStr c.type == "percentage" then amount * c.value / 100
                  else if c.value > amount then amount else c.value
              let gsub : GatewaySub :=
                { id := freshHandle
                  plan_id := plan.2
                  quantity := if payment.plan_type == "yearly" then 1 else 1
                  total_count := if payment.plan_type == "yearly" then 12 else 1 }
              let gateway' := { w.gateway with subs := w.gateway.subs ++ [gsub] }
              let subs' :=
                match active_subscription with
                | some s => w.db.subscriptions.map fun x =>
                    if x.id == s.id then { x with status := SubscriptionStatus.cancelled } else x
                | none => w.db.subscriptions
              let order : Order :=
                { id := freshOrderId
                  user := uid
                  plan := plan.1
                  amount := amount
                  discount_amount := discount_amount
                  final_amount := (amount : Int) - (discount_amount : Int)
                  payment_id := freshHandle
                  status := PaymentStatus.pending }
              let db' := { w.db with subscriptions := subs', orders := w.db.orders ++ [order] }
              (.success freshHandle ((amount : Int) - (discount_amount : Int)),
               { db := db', gateway := gateway' })

/-! ## POST /payment/verify — `verify_payment` (routes.py lines 439-508) -/

/-- Outcome of `verify_payment`, one constructor per distinct response. -/
inductive VerifyResult where
  | orderNotFound
  | invalidSignature
  | gatewayError
  | userNotFound
  | success
deriving DecidableEq, Repr

/-- Lines 470-477: cancel every ACTIVE subscription of the given user
(each row's status set to CANCELLED, written back to the session). -/
def cancelActiveOf (uid : String) (subs : List Subscription) : List Subscription :=
  subs.map fun s =>
    if s.user == uid && s.status == SubscriptionStatus.active then
      { s with status := SubscriptionStatus.cancelled }
    else s

/-- `verify_payment`: check the gateway signature and activate the
subscription.  Returns the response, the final world, and the list of
`db.commit()` snapshots in order — the source commits three separate times
on the success path (after inserting the subscription, after marking the
order paid, after updating the user). -/
def verify_payment (cfg : Config) (now : Int) (freshSubId : String)
    (payment : PaymentVerifySchema) (w : World) : VerifyResult × World × List DB :=
  match w.db.orders.find? (fun o => o.payment_id == payment.razorpay_subscription_id) with
  | none => (.orderNotFound, w, [])
  | some order =>
    let msg := payment.razorpay_payment_id ++ "|" ++ payment.razorpay_subscription_id
    let generated_signature := hmacHex cfg.razorpay_key_secret msg
    if generated_signature != payment.razorpay_signature then
      let db1 := setOrderStatus w.db order.id PaymentStatus.failed
      (.invalidSignature, { w with db := db1 }, [db1])
    else
      match w.gateway.subs.find? (fun s => s.id == payment.razorpay_subscription_id) with
      | none => (.gatewayError, w, [])
      | some subscription =>
        match w.db.users.find? (fun u => u.id == order.user) with
        | none => (.userNotFound, w, [])
        | some user =>
          let duration_days : Nat := if subscription.quantity == 12 then 365 else 30
          let cancelled := cancelActiveOf user.id w.db.subscriptions
          let user_subscription : Subscription :=
            { id := freshSubId
              user := user.id
              order := order.id
              start_date := now
              end_date := addDays now duration_days
              status := SubscriptionStatus.active }
          let db1 := { w.db with subscriptions := cancelled ++ [user_subscription] }
          let db2 := setOrderStatus db1 order.id PaymentStatus.paid
          let user' :=
            let u1 :=
              if order.plan == "doctor" then
                { user with account_type := "doctor", credits := (150 : Int) }
              else if order.plan == "premium" then
                { user with account_type := "premium", credits := (500 : Int) }
              else user
            { u1 with
                last_credit_updated_at := some now
                credit_expiry := some user_subscription.end_date }
          let db3 := setUser db2 user'
          (.success, { w with db := db3 }, [db1, db2, db3])

/-! ## GET /apply-coupon — `apply_coupon` (routes.py lines 614-680) -/

/-- Outcome of `apply_coupon`. -/
inductive ApplyCouponResult where
  | invalidOrExpiredCoupon
  | planNotFound
  | gatewayError
  | success (original : Nat) (discount_amount : Nat) (final_amount : Int)
deriving DecidableEq, Repr

/-- The coupon filter of `apply_coupon` (lines 621-630): code compared
against the uppercased input, active, `valid_until > now` (NULL fails), and
either no `max_uses` cap or `used_count < max_uses`. -/
def applyCouponFilter (now : Int) (code : String) (c : Coupon) : Bool :=
  c.code == pyUpper code && c.is_active &&
    (match c.valid_until with
     | some t => decide (now < t)
     | none => false) &&
    (match c.max_uses with
     | none => true
     | some m => c.used_count < m)

/-- `apply_coupon`: preview a coupon against a plan.  Pure — no state is
mutated. -/
def apply_coupon (cfg : Config) (now : Int) (plan_name coupon_code : String) (w : World) :
    ApplyCouponResult :=
  match w.db.coupons.find? (applyCouponFilter now coupon_code) with
  | none => .invalidOrExpiredCoupon
  | some coupon =>
    match (plans cfg).find? (fun p => pyLower p.1 == pyLower plan_name) with
    | none => .planNotFound
    | some plan =>
      match lookupAmount w.gateway.plan_amounts plan.2 with
      | none => .gatewayError
      | some amount =>
        let discount_amount : Nat :=
          if pyStr coupon.type == "CouponType.PERCENTAGE" ||
              pyStr coupon.type == "percentage" then
            amount * coupon.value / 100
          else
            min coupon.value amount
        .success amount discount_amount ((amount : Int) - (discount_amount : Int))

/-! ## POST predict — `create_prediction` (src/predict/routes.py lines 163-279) -/

/-- Outcome of `create_prediction` by status code class. -/
inductive PredictResult where
  | unauthorized
  | badRequest
  | serverError
  | ok
deriving DecidableEq, Repr

/-- `create_prediction`, reduced to its effect on the user row: the external
steps (X-ray lookup, file existence, Roboflow inference, annotation, the
prediction/label inserts) are oracles passed as booleans, and on full
success the handler runs `user.credits -= 1` — with no check of the credit
balance anywhere on the path. -/
def create_prediction (user? : Option UserAccount)
    (xray_found image_exists model_ok annotate_ok db_ok : Bool) :
    PredictResult × Option UserAccount :=
  match user? with
  | none => (.unauthorized, none)
  | some user =>
    if !(user.user_type == "doctor") then (.unauthorized, some user)
    else if !xray_found then (.badRequest, some user)
    else if !image_exists then (.badRequest, some user)
    else if !model_ok then (.serverError, some user)
    else if !annotate_ok then (.serverError, some user)
    else if !db_ok then (.serverError, some user)
    else (.ok, some { user with credits := user.credits - 1 })

/-! ## Concrete fixtures for witnesses and counterexamples -/

/-- A concrete configuration. -/
def cfg0 : Config :=
  { razorpay_key_secret := "key", doctor_plan_id := "plan_doc", premium_plan_id := "plan_prem" }

/-- Gateway with a price table and one already-created subscription intent
`sub_1` of quantity 1 (what `subscribe` creates for either cadence). -/
def gw0 : Gateway :=
  { plan_amounts := [("plan_doc", 999), ("plan_prem", 4999)]
    subs := [{ id := "sub_1", plan_id := "plan_doc", quantity := 1, total_count := 1 }] }

/-- The order of `W1`, parametrised by its status. -/
def o1 (s0 : PaymentStatus) : Order :=
  { id := "o1", user := "u1", plan := "doctor", amount := 999, discount_amount := 0,
    final_amount := 999, payment_id := "sub_1", status := s0 }

/-- One user `u1`, one order `o1` with gateway handle `sub_1` whose status and
the user's credit balance are parameters. -/
def W1 (s0 : PaymentStatus) (c0 : Int) : World :=
  { db :=
      { users := [{ id := "u1", user_type := "doctor", account_type := "free", credits := c0,
                    credit_expiry := none, last_credit_updated_at := none }]
        orders := [o1 s0]
        subscriptions := [], coupons := [], coupon_users := [] }
    gateway := gw0 }

/-- A verification request for `sub_1` carrying a wrong signature. -/
def pvBad : PaymentVerifySchema :=
  { razorpay_payment_id := "pay_1", razorpay_subscription_id := "sub_1"
    razorpay_signature := "bad" }

/-- A verification request for `sub_1` whose signature is exactly the value
the handler recomputes. -/
def pv0 : PaymentVerifySchema :=
  { razorpay_payment_id := "pay_1", razorpay_subscription_id := "sub_1"
    razorpay_signature := hmacHex "key" "pay_1|sub_1" }

/-- An active percentage coupon `SAVE10` of value 10, no cap, not yet used. -/
def save10 : Coupon :=
  { id := "c1", code := "SAVE10", type := CouponType.percentage, value := 10,
    max_uses := none, used_count := 0, valid_from := 0, valid_until := some 1000000,
    is_active := true }

/-- World for discount computations: one free user, the `SAVE10` coupon, no
orders yet. -/
def W6 : World :=
  { db :=
      { users := [{ id := "u1", user_type := "doctor", account_type := "free", credits := 3,
                    credit_expiry := none, last_credit_updated_at := none }]
        orders := [], subscriptions := [], coupons := [save10], coupon_users := [] }
    gateway := { plan_amounts := [("plan_doc", 999), ("plan_prem", 4999)], subs := [] } }

/-- Like `W6`, but user `u1` has already redeemed `SAVE10`: the
`coupon_users` association row `(c1, u1)` exists. -/
def W7 : World :=
  { db := { W6.db with coupon_users := [("c1", "u1")] }, gateway := W6.gateway }

/-- A premium-tier user with no subscription row at all. -/
def W8 : World :=
  { db :=
      { users := [{ id := "u1", user_type := "doctor", account_type := "premium",
                    credits := 500, credit_expiry := none, last_credit_updated_at := none }]
        orders := [], subscriptions := [], coupons := [], coupon_users := [] }
    gateway := { plan_amounts := [("plan_doc", 999), ("plan_prem", 4999)], subs := [] } }

/-- A doctor-tier user with an ACTIVE subscription `s1`. -/
def W8a : World :=
  { db :=
      { users := [{ id := "u1", user_type := "doctor", account_type := "doctor",
                    credits := 150, credit_expiry := none, last_credit_updated_at := none }]
        orders := []
        subscriptions := [{ id := "s1", user := "u1", order := "o0", start_date := 0,
                            end_date := 5000000, status := SubscriptionStatus.active }]
        coupons := [], coupon_users := [] }
    gateway := { plan_amounts := [("plan_doc", 999), ("plan_prem", 4999)], subs := [] } }

/-- `W1` with a pre-existing ACTIVE subscription for `u1`, for the
one-active-subscription invariant. -/
def W5 : World :=
  { db :=
      { users := (W1 .pending 3).db.users
        orders := (W1 .pending 3).db.orders
        subscriptions := [{ id := "s1", user := "u1", order := "o0", start_date := 0,
                            end_date := 5000000, status := SubscriptionStatus.active }]
        coupons := [], coupon_users := [] }
    gateway := gw0 }

/-- Start world for the purchase-then-verify chain: user `u1`, no orders, the
gateway has not created any subscription intent yet. -/
def W10 : World :=
  { db :=
      { users := [{ id := "u1", user_type := "doctor", account_type := "free", credits := 3,
                    credit_expiry := none, last_credit_updated_at := none }]
        orders := [], subscriptions := [], coupons := [], coupon_users := [] }
    gateway := { plan_amounts := [("plan_doc", 999), ("plan_prem", 4999)], subs := [] } }

/-- A doctor-type user whose credit balance is exhausted. -/
def u9 : UserAccount :=
  { id := "u1", user_type := "doctor", account_type := "doctor", credits := 0,
    credit_expiry := none, last_credit_updated_at := none }

/-- The gateway subscription intent `subscribe` creates (`subscription_data`,
lines 381-388): quantity `1 if yearly else 1`, total count `12 if yearly
else 1`. -/
def gatewayIntent (fh plan_id plan_type : String) : GatewaySub :=
  { id := fh
    plan_id := plan_id
    quantity := if plan_type == "yearly" then 1 else 1
    total_count := if plan_type == "yearly" then 12 else 1 }

/-! ## Named pieces of the `verify_payment` success path -/

/-- The subscription row inserted by a successful verification. -/
def newSubscription (fid : String) (now : Int) (o : Order) (gs : GatewaySub)
    (user : UserAccount) : Subscription :=
  { id := fid
    user := user.id
    order := o.id
    start_date := now
    end_date := addDays now (if gs.quantity == 12 then 365 else 30)
    status := SubscriptionStatus.active }

/-- The entitlement update of a successful verification (lines 494-503):
absolute assignment of tier and credits keyed on the order's plan, then the
credit bookkeeping fields. -/
def grantUser (o : Order) (now : Int) (endDate : Int) (user : UserAccount) : UserAccount :=
  let u1 :=
    if o.plan == "doctor" then
      { user with account_type := "doctor", credits := (150 : Int) }
    else if o.plan == "premium" then
      { user with account_type := "premium", credits := (500 : Int) }
    else user
  { u1 with last_credit_updated_at := some now, credit_expiry := some endDate }

/-- The first committed snapshot of a successful verification: prior ACTIVE
subscriptions of the user cancelled, the fresh ACTIVE one appended. -/
def verifyDB1 (w : World) (ns : Subscription) (user : UserAccount) : DB :=
  { w.db with subscriptions := cancelActiveOf user.id w.db.subscriptions ++ [ns] }

/-- The second committed snapshot: the order marked PAID. -/
def verifyDB2 (w : World) (ns : Subscription) (user : UserAccount) (o : Order) : DB :=
  setOrderStatus (verifyDB1 w ns user) o.id PaymentStatus.paid

/-- The third committed snapshot: the entitlement written to the user row. -/
def verifyDB3 (w : World) (ns : Subscription) (user : UserAccount) (o : Order)
    (now : Int) : DB :=
  setUser (verifyDB2 w ns user o) (grantUser o now ns.end_date user)

/-! ## Invariant vocabulary and shared lemmas -/

/-- Number of ACTIVE subscription rows owned by `uid`. -/
def activeCount (subs : List Subscription) (uid : String) : Nat :=
  subs.countP fun s => s.user == uid && s.status == SubscriptionStatus.active

/-- "At most one ACTIVE subscription per account" over a subscription table. -/
def atMostOneActiveSubs (subs : List Subscription) : Prop :=
  ∀ uid ∈ subs.map (fun s => s.user), activeCount subs uid ≤ 1

instance decidableAtMostOneActiveSubs (subs : List Subscription) :
    Decidable (atMostOneActiveSubs subs) :=
  inferInstanceAs
    (Decidable (∀ uid ∈ subs.map (fun s : Subscription => s.user), activeCount subs uid ≤ 1))

theorem activeCount_cancelActiveOf_self (u : String) (subs : List Subscription) :
    activeCount (cancelActiveOf u subs) u = 0 := by
  unfold activeCount cancelActiveOf
  rw [List.countP_eq_zero]
  intro a ha
  rw [List.mem_map] at ha
  obtain ⟨x, _, rfl⟩ := ha
  by_cases h : (x.user == u && x.status == SubscriptionStatus.active) = true
  · simp [h]
  · rw [if_neg h]
    simpa using h

theorem activeCount_cancelActiveOf_other (u uid : String) (subs : List Subscription)
    (hne : uid ≠ u) :
    activeCount (cancelActiveOf u subs) uid = activeCount subs uid := by
  unfold activeCount cancelActiveOf
  rw [List.countP_map]
  apply List.countP_congr
  intro x _
  by_cases h : (x.user == u && x.status == SubscriptionStatus.active) = true
  · have hu : x.user = u := eq_of_beq ((Bool.and_eq_true _ _).mp h).1
    have hnu : (x.user == uid) = false := by
      rw [hu]
      exact beq_false_of_ne fun he => hne he.symm
    simp [Function.comp, h, hnu]
  · simp [Function.comp, h]

theorem cancelActiveOf_users (u : String) (subs : List Subscription) :
    (cancelActiveOf u subs).map (fun s => s.user) = subs.map (fun s => s.user) := by
  unfold cancelActiveOf
  rw [List.map_map]
  apply List.map_congr_left
  intro x _
  by_cases h : (x.user == u && x.status == SubscriptionStatus.active) = true
  · simp [Function.comp, h]
  · simp [Function.comp, h]

/-- Activating a fresh ACTIVE subscription right after cancelling every
prior ACTIVE subscription of the same user preserves the one-active-per-user
invariant. -/
theorem atMostOneActiveSubs_activate (subs : List Subscription) (u : String)
    (ns : Subscription) (hns : ns.user = u)
    (h : atMostOneActiveSubs subs) :
    atMostOneActiveSubs (cancelActiveOf u subs ++ [ns]) := by
  intro uid hmem
  rw [List.map_append, List.mem_append, cancelActiveOf_users] at hmem
  unfold activeCount
  rw [List.countP_append]
  by_cases huid : uid = u
  · subst huid
    have h0 := activeCount_cancelActiveOf_self uid subs
    unfold activeCount at h0
    rw [h0]
    have hle := List.countP_le_length
      (p := fun s => s.user == uid && s.status == SubscriptionStatus.active) (l := [ns])
    simp only [List.length_singleton] at hle
    omega
  · have heq := activeCount_cancelActiveOf_other u uid subs huid
    unfold activeCount at heq
    rw [heq]
    have hnsu : (ns.user == uid) = false := by
      rw [hns]
      exact beq_false_of_ne fun he => huid he.symm
    have htail : List.countP
        (fun s => s.user == uid && s.status == SubscriptionStatus.active) [ns] = 0 := by
      simp [hnsu]
    rw [htail]
    have huidmem : uid ∈ subs.map (fun s => s.user) := by
      rcases hmem with hmem | hmem
      · exact hmem
      · simp only [List.map_cons, List.map_nil, List.mem_singleton] at hmem
        subst hmem
        exact absurd hns huid
    have hcount := h uid huidmem
    unfold activeCount at hcount
    omega

/-- Cancelling a single subscription row never increases any user's active
count. -/
theorem activeCount_cancelOne_le (sid uid : String) (subs : List Subscription) :
    activeCount (subs.map fun x =>
      if x.id == sid then { x with status := SubscriptionStatus.cancelled } else x) uid ≤
    activeCount subs uid := by
  unfold activeCount
  rw [List.countP_map]
  apply List.countP_mono_left
  intro x _ hx
  by_cases h : (x.id == sid) = true
  · rw [Function.comp_apply, if_pos h] at hx
    exact absurd ((Bool.and_eq_true _ _).mp hx).2 (by simp)
  · rwa [Function.comp_apply, if_neg h] at hx

/-- Cancelling a single subscription row leaves the user column unchanged. -/
theorem cancelOne_users (sid : String) (subs : List Subscription) :
    (subs.map fun x =>
      if x.id == sid then { x with status := SubscriptionStatus.cancelled } else x).map
        (fun s => s.user) = subs.map (fun s => s.user) := by
  rw [List.map_map]
  apply List.map_congr_left
  intro x _
  by_cases h : (x.id == sid) = true
  · simp [Function.comp, h]
  · simp [Function.comp, h]

/-- Every order row carrying the targeted primary key has the written status
after `setOrderStatus`. -/
theorem status_of_mem_setOrderStatus (db : DB) (oid : String) (st : PaymentStatus)
    (x : Order) (hx : x ∈ (setOrderStatus db oid st).orders) (hid : x.id = oid) :
    x.status = st := by
  simp only [setOrderStatus, List.mem_map] at hx
  obtain ⟨y, _, hxy⟩ := hx
  by_cases h : (y.id == oid) = true
  · rw [if_pos h] at hxy
    subst hxy
    rfl
  · rw [if_neg h] at hxy
    subst hxy
    exact absurd (by simp [hid]) h

/-- Every user row carrying the written user's primary key equals the written
row after `setUser`. -/
theorem eq_of_mem_setUser (db : DB) (u : UserAccount)
    (x : UserAccount) (hx : x ∈ (setUser db u).users) (hid : x.id = u.id) :
    x = u := by
  simp only [setUser, List.mem_map] at hx
  obtain ⟨y, _, hxy⟩ := hx
  by_cases h : (y.id == u.id) = true
  · rw [if_pos h] at hxy
    exact hxy.symm
  · rw [if_neg h] at hxy
    subst hxy
    exact absurd (by simp [hid]) h

theorem verifyDB2_subscriptions (w : World) (ns : Subscription) (user : UserAccount)
    (o : Order) : (verifyDB2 w ns user o).subscriptions = (verifyDB1 w ns user).subscriptions :=
  rfl

theorem verifyDB3_subscriptions (w : World) (ns : Subscription) (user : UserAccount)
    (o : Order) (now : Int) :
    (verifyDB3 w ns user o now).subscriptions = (verifyDB1 w ns user).subscriptions :=
  rfl

/-- Cancelling one subscription row preserves the one-active-per-user bound. -/
theorem atMostOneActiveSubs_cancelOne (sid : String) (subs : List Subscription)
    (h : atMostOneActiveSubs subs) :
    atMostOneActiveSubs (subs.map fun x =>
      if x.id == sid then { x with status := SubscriptionStatus.cancelled } else x) := by
  intro uid hmem
  rw [cancelOne_users] at hmem
  exact le_trans (activeCount_cancelOne_le sid uid subs) (h uid hmem)

/-- `subscribe` never touches the users, coupons or coupon-redemption
tables, and its only effect on the subscription table is possibly cancelling
one row (the superseded active subscription). -/
theorem subscribe_db_shape : ∀ (cfg : Config) (now : Int) (fh fo : String)
    (cu : Option String) (pay : PaymentCreateSchema) (w : World),
    (subscribe cfg now fh fo cu pay w).2.db.users = w.db.users ∧
    (subscribe cfg now fh fo cu pay w).2.db.coupons = w.db.coupons ∧
    (subscribe cfg now fh fo cu pay w).2.db.coupon_users = w.db.coupon_users ∧
    ((subscribe cfg now fh fo cu pay w).2.db.subscriptions = w.db.subscriptions ∨
      ∃ sid, (subscribe cfg now fh fo cu pay w).2.db.subscriptions =
        w.db.subscriptions.map (fun x =>
          if x.id == sid then { x with status := SubscriptionStatus.cancelled } else x)) := by
  intro cfg now fh fo cu pay w
  cases cu with
  | none => simp [subscribe]
  | some uid =>
    cases huser : w.db.users.find? (fun u => u.id == uid) with
    | none => simp [subscribe, huser]
    | some user =>
      cases hplan : (plans cfg).find? (fun p => pyLower p.1 == pyLower pay.plan) with
      | none => simp [subscribe, huser, hplan]
      | some plan =>
        cases hact : w.db.subscriptions.find?
            (fun s => s.user == user.id && s.status == SubscriptionStatus.active) with
        | none =>
          cases hc : pay.coupon with
          | none =>
            cases hamt : lookupAmount w.gateway.plan_amounts plan.2 with
            | none => simp [subscribe, huser, hplan, hact, hc, hamt]
            | some amount => simp [subscribe, huser, hplan, hact, hc, hamt]
          | some code =>
            cases hcp : w.db.coupons.find? (subscribeCouponFilter now code) with
            | none => simp [subscribe, huser, hplan, hact, hc, hcp]
            | some c =>
              cases hamt : lookupAmount w.gateway.plan_amounts plan.2 with
              | none => simp [subscribe, huser, hplan, hact, hc, hcp, hamt]
              | some amount => simp [subscribe, huser, hplan, hact, hc, hcp, hamt]
        | some s =>
          by_cases hat1 : (user.account_type == "premium") = true
          · simp [subscribe, huser, hplan, hact, hat1]
          · by_cases hat2 : (user.account_type == "doctor" && pyLower pay.plan != "premium") = true
            · simp [subscribe, huser, hplan, hact, hat1, hat2]
            · cases hc : pay.coupon with
              | none =>
                cases hamt : lookupAmount w.gateway.plan_amounts plan.2 with
                | none => simp [subscribe, huser, hplan, hact, hat1, hat2, hc, hamt]
                | some amount =>
                  refine ⟨by simp [subscribe, huser, hplan, hact, hat1, hat2, hc, hamt],
                    by simp [subscribe, huser, hplan, hact, hat1, hat2, hc, hamt],
                    by simp [subscribe, huser, hplan, hact, hat1, hat2, hc, hamt],
                    Or.inr ⟨s.id, by simp [subscribe, huser, hplan, hact, hat1, hat2, hc, hamt]⟩⟩
              | some code =>
                cases hcp : w.db.coupons.find? (subscribeCouponFilter now code) with
                | none => simp [subscribe, huser, hplan, hact, hat1, hat2, hc, hcp]
                | some c =>
                  cases hamt : lookupAmount w.gateway.plan_amounts plan.2 with
                  | none => simp [subscribe, huser, hplan, hact, hat1, hat2, hc, hcp, hamt]
                  | some amount =>
                    refine ⟨by simp [subscribe, huser, hplan, hact, hat1, hat2, hc, hcp, hamt],
                      by simp [subscribe, huser, hplan, hact, hat1, hat2, hc, hcp, hamt],
                      by simp [subscribe, huser, hplan, hact, hat1, hat2, hc, hcp, hamt],
                      Or.inr ⟨s.id,
                        by simp [subscribe, huser, hplan, hact, hat1, hat2, hc, hcp, hamt]⟩⟩

/-- Closed form of the `verify_payment` success path: when the order, the
gateway subscription and the user are all found and the recomputed signature
matches, the handler returns success and commits exactly three snapshots. -/
theorem verify_payment_success_eq (cfg : Config) (now : Int) (fid : String)
    (pv : PaymentVerifySchema) (w : World) (o : Order) (gs : GatewaySub)
    (user : UserAccount)
    (hord : w.db.orders.find? (fun x => x.payment_id == pv.razorpay_subscription_id) = some o)
    (hsig : (hmacHex cfg.razorpay_key_secret
      (pv.razorpay_payment_id ++ "|" ++ pv.razorpay_subscription_id) !=
        pv.razorpay_signature) = false)
    (hgw : w.gateway.subs.find? (fun s => s.id == pv.razorpay_subscription_id) = some gs)
    (huser : w.db.users.find? (fun u => u.id == o.user) = some user) :
    verify_payment cfg now fid pv w =
      (VerifyResult.success,
       { w with db := verifyDB3 w (newSubscription fid now o gs user) user o now },
       [verifyDB1 w (newSubscription fid now o gs user) user,
        verifyDB2 w (newSubscription fid now o gs user) user o,
        verifyDB3 w (newSubscription fid now o gs user) user o now]) := by
  simp only [verify_payment, hord, hsig, hgw, huser, Bool.false_eq_true, if_false,
    verifyDB1, verifyDB2, verifyDB3, newSubscription, grantUser]

/-! ## Claim C9 -/

/-- Claim C9 (refuting evidence): the spec requires a `credits > 0` check
before the debit and a never-negative balance, but `create_prediction` on a
doctor whose balance is already 0, with every pipeline step succeeding,
returns 200 and drives the balance to -1. -/
theorem claim_C9 :
    u9.credits = 0 ∧
    (create_prediction (some u9) true true true true true).1 = PredictResult.ok ∧
    ((create_prediction (some u9) true true true true true).2.map
      (fun u => u.credits)) = some (-1) := by
  decide

/-! ## Claim C6 -/

/-- Claim C6 (refuting evidence): the percentage coupon `SAVE10` (value 10)
on base amount 999 yields discount 99 / final 900 at the preview endpoint
(`apply_coupon`), as the claim states — but the purchase endpoint
(`subscribe`) compares the `CouponType` enum member against the string
`"percentage"`, which is never true in Python, so it applies the value as a
fixed amount: the created order carries discount 10 / final 989. -/
theorem claim_C6 :
    apply_coupon cfg0 0 "doctor" "SAVE10" W6 = .success 999 99 900 ∧
    (subscribe cfg0 0 "sub_9" "o9" (some "u1")
      { plan := "doctor", coupon := some "SAVE10", plan_type := "monthly" } W6).1 =
      .success "sub_9" 989 ∧
    ((subscribe cfg0 0 "sub_9" "o9" (some "u1")
      { plan := "doctor", coupon := some "SAVE10", plan_type := "monthly" } W6).2.db.orders.map
        (fun o => (o.discount_amount, o.final_amount))) = [(10, 989)] := by
  decide

/-! ## Claim C1 -/

/-- Claim C1 (counterexample): an order whose status is already PAID (not
PENDING) is re-verified with a valid signature and the call returns success
— there is no `AlreadyProcessed` idempotency guard of any kind. -/
theorem claim_C1_counterexample :
    (W1 .paid 150).db.orders.map (fun o => o.status) = [PaymentStatus.paid] ∧
    (verify_payment cfg0 1000 "s2" pv0 (W1 .paid 150)).1 = VerifyResult.success := by
  exact ⟨rfl, rfl⟩

/-- Claim C1 (amended): `verify_payment` never inspects the order status:
whatever the status and whatever the account's prior balance, a call with a
valid signature processes the order and returns success, and a second
identical call succeeds again.  Credit grants are absolute assignments
(doctor plan ↦ 150), so the balance value after the second call equals the
value after the first; the second call cancels the first call's subscription
and inserts a fresh ACTIVE one. -/
theorem claim_C1 : ∀ (s0 : PaymentStatus) (c0 : Int),
    ((verify_payment cfg0 1000 "s2" pv0 (W1 s0 c0)).1 = VerifyResult.success) ∧
    ((verify_payment cfg0 1000 "s2" pv0 (W1 s0 c0)).2.1.db.users.map
      (fun u => u.credits) = [150]) ∧
    ((verify_payment cfg0 2000 "s3" pv0
        (verify_payment cfg0 1000 "s2" pv0 (W1 s0 c0)).2.1).1 = VerifyResult.success) ∧
    ((verify_payment cfg0 2000 "s3" pv0
        (verify_payment cfg0 1000 "s2" pv0 (W1 s0 c0)).2.1).2.1.db.users.map
      (fun u => u.credits) = [150]) ∧
    ((verify_payment cfg0 2000 "s3" pv0
        (verify_payment cfg0 1000 "s2" pv0 (W1 s0 c0)).2.1).2.1.db.subscriptions.map
      (fun s => (s.id, s.status))) =
      [("s2", SubscriptionStatus.cancelled), ("s3", SubscriptionStatus.active)] := by
  intro s0 c0
  cases s0 <;> exact ⟨rfl, rfl, rfl, rfl, rfl⟩

/-! ## Claim C3 -/

/-- Claim C3 (counterexample): partial state is observable.  On a successful
verification the very first committed snapshot already contains the new
ACTIVE subscription `s2` while its order `o1` is still PENDING — the
PAID-transition is spread over three separate commits, not one transaction. -/
theorem claim_C3_counterexample :
    ((verify_payment cfg0 1000 "s2" pv0 (W1 .pending 3)).2.2.head?).map
      (fun d => (d.subscriptions.map (fun s => (s.id, s.status)),
                 d.orders.map (fun o => (o.id, o.status)))) =
    some ([("s2", SubscriptionStatus.active)], [("o1", PaymentStatus.pending)]) := by
  rfl

/-! ## Claim C2 -/

/-- Claim C2 (refuting evidence): no path of `verify_payment` — nor of order
creation — ever inserts a `coupon_users` (CouponRedemption) row or changes
the coupons table (so `used_count` is never incremented): the coupon tables
are identical in the final state and in every committed snapshot. -/
theorem claim_C2 :
    (∀ (cfg : Config) (now : Int) (fid : String) (pv : PaymentVerifySchema) (w : World),
      (verify_payment cfg now fid pv w).2.1.db.coupons = w.db.coupons ∧
      (verify_payment cfg now fid pv w).2.1.db.coupon_users = w.db.coupon_users ∧
      ∀ db' ∈ (verify_payment cfg now fid pv w).2.2,
        db'.coupons = w.db.coupons ∧ db'.coupon_users = w.db.coupon_users) ∧
    (∀ (cfg : Config) (now : Int) (fh fo : String) (cu : Option String)
      (pay : PaymentCreateSchema) (w : World),
      (subscribe cfg now fh fo cu pay w).2.db.coupons = w.db.coupons ∧
      (subscribe cfg now fh fo cu pay w).2.db.coupon_users = w.db.coupon_users) := by
  constructor
  · intro cfg now fid pv w
    cases hord : w.db.orders.find? (fun o => o.payment_id == pv.razorpay_subscription_id) with
    | none => simp [verify_payment, hord]
    | some order =>
      by_cases hsig : (hmacHex cfg.razorpay_key_secret
          (pv.razorpay_payment_id ++ "|" ++ pv.razorpay_subscription_id) !=
            pv.razorpay_signature) = true
      · simp [verify_payment, hord, hsig, setOrderStatus]
      · cases hgw : w.gateway.subs.find? (fun s => s.id == pv.razorpay_subscription_id) with
        | none => simp [verify_payment, hord, hsig, hgw]
        | some gs =>
          cases huser : w.db.users.find? (fun u => u.id == order.user) with
          | none => simp [verify_payment, hord, hsig, hgw, huser]
          | some user =>
            simp [verify_payment, hord, hsig, hgw, huser, setOrderStatus, setUser]
  · intro cfg now fh fo cu pay w
    exact ⟨(subscribe_db_shape cfg now fh fo cu pay w).2.1,
           (subscribe_db_shape cfg now fh fo cu pay w).2.2.1⟩

/-! ## Claim C4 -/

/-- Claim C4: given that the order is found, `verify_payment` returns
`InvalidSignature` exactly when the supplied signature differs from
`HMAC_SHA256(secret, "{payment_id}|{handle}")`, and on a mismatch the order
row is committed with status FAILED; on a match verification proceeds past
the signature gate. -/
theorem claim_C4 : ∀ (cfg : Config) (now : Int) (fid : String) (pv : PaymentVerifySchema)
    (w : World) (o : Order),
    w.db.orders.find? (fun x => x.payment_id == pv.razorpay_subscription_id) = some o →
    (((verify_payment cfg now fid pv w).1 = VerifyResult.invalidSignature) ↔
      hmacHex cfg.razorpay_key_secret
        (pv.razorpay_payment_id ++ "|" ++ pv.razorpay_subscription_id) ≠
        pv.razorpay_signature) ∧
    (hmacHex cfg.razorpay_key_secret
        (pv.razorpay_payment_id ++ "|" ++ pv.razorpay_subscription_id) ≠
        pv.razorpay_signature →
      ∀ x ∈ (verify_payment cfg now fid pv w).2.1.db.orders, x.id = o.id →
        x.status = PaymentStatus.failed) := by
  intro cfg now fid pv w o hord
  by_cases hsig : (hmacHex cfg.razorpay_key_secret
      (pv.razorpay_payment_id ++ "|" ++ pv.razorpay_subscription_id) !=
        pv.razorpay_signature) = true
  · have hne := bne_iff_ne.mp hsig
    constructor
    · constructor
      · intro _
        exact hne
      · intro _
        simp [verify_payment, hord, hsig]
    · intro _ x hx hid
      have hdb : (verify_payment cfg now fid pv w).2.1.db =
          setOrderStatus w.db o.id PaymentStatus.failed := by
        simp [verify_payment, hord, hsig]
      rw [hdb] at hx
      exact status_of_mem_setOrderStatus w.db o.id PaymentStatus.failed x hx hid
  · have heq : hmacHex cfg.razorpay_key_secret
        (pv.razorpay_payment_id ++ "|" ++ pv.razorpay_subscription_id) =
        pv.razorpay_signature := by
      simpa using hsig
    have hres : (verify_payment cfg now fid pv w).1 ≠ VerifyResult.invalidSignature := by
      cases hgw : w.gateway.subs.find? (fun s => s.id == pv.razorpay_subscription_id) with
      | none => simp [verify_payment, hord, hsig, hgw]
      | some gs =>
        cases huser : w.db.users.find? (fun u => u.id == o.user) with
        | none => simp [verify_payment, hord, hsig, hgw, huser]
        | some user => simp [verify_payment, hord, hsig, hgw, huser]
    exact ⟨⟨fun h => absurd h hres, fun h => absurd heq h⟩, fun h => absurd heq h⟩

/-- Claim C4 witness: the concrete world `W1` with the tampered signature
`"bad"`: the handler indeed answers `InvalidSignature`. -/
theorem claim_C4_witness :
    ((verify_payment cfg0 1000 "s2" pvBad (W1 .pending 3)).1 =
        VerifyResult.invalidSignature ↔
      hmacHex cfg0.razorpay_key_secret
        (pvBad.razorpay_payment_id ++ "|" ++ pvBad.razorpay_subscription_id) ≠
        pvBad.razorpay_signature) ∧
    (verify_payment cfg0 1000 "s2" pvBad (W1 .pending 3)).1 =
      VerifyResult.invalidSignature := by
  have h := claim_C4 cfg0 1000 "s2" pvBad (W1 .pending 3) (o1 .pending) rfl
  exact ⟨h.1, h.1.mpr (by decide)⟩

/-! ## Claim C5 -/

/-- Claim C5: in the sequential model, the "at most one ACTIVE subscription
per account" invariant is preserved by `verify_payment` — in every committed
snapshot, including the one activating the fresh subscription (the same
commit cancels every prior ACTIVE row of that account) — and by `subscribe`
(which can only cancel a superseded subscription). -/
theorem claim_C5 :
    (∀ (cfg : Config) (now : Int) (fid : String) (pv : PaymentVerifySchema) (w : World),
      atMostOneActiveSubs w.db.subscriptions →
      (∀ db' ∈ (verify_payment cfg now fid pv w).2.2, atMostOneActiveSubs db'.subscriptions) ∧
      atMostOneActiveSubs (verify_payment cfg now fid pv w).2.1.db.subscriptions) ∧
    (∀ (cfg : Config) (now : Int) (fh fo : String) (cu : Option String)
      (pay : PaymentCreateSchema) (w : World),
      atMostOneActiveSubs w.db.subscriptions →
      atMostOneActiveSubs (subscribe cfg now fh fo cu pay w).2.db.subscriptions) := by
  constructor
  · intro cfg now fid pv w hinv
    cases hord : w.db.orders.find? (fun o => o.payment_id == pv.razorpay_subscription_id) with
    | none =>
      constructor
      · intro db' hdb'
        simp [verify_payment, hord] at hdb'
      · simpa [verify_payment, hord] using hinv
    | some o =>
      by_cases hsig : (hmacHex cfg.razorpay_key_secret
          (pv.razorpay_payment_id ++ "|" ++ pv.razorpay_subscription_id) !=
            pv.razorpay_signature) = true
      · constructor
        · intro db' hdb'
          simp [verify_payment, hord, hsig] at hdb'
          subst hdb'
          simpa [setOrderStatus] using hinv
        · simpa [verify_payment, hord, hsig, setOrderStatus] using hinv
      · cases hgw : w.gateway.subs.find? (fun s => s.id == pv.razorpay_subscription_id) with
        | none =>
          constructor
          · intro db' hdb'
            simp [verify_payment, hord, hsig, hgw] at hdb'
          · simpa [verify_payment, hord, hsig, hgw] using hinv
        | some gs =>
          cases huser : w.db.users.find? (fun u => u.id == o.user) with
          | none =>
            constructor
            · intro db' hdb'
              simp [verify_payment, hord, hsig, hgw, huser] at hdb'
            · simpa [verify_payment, hord, hsig, hgw, huser] using hinv
          | some user =>
            rw [Bool.not_eq_true] at hsig
            have he := verify_payment_success_eq cfg now fid pv w o gs user hord hsig hgw huser
            have key := atMostOneActiveSubs_activate w.db.subscriptions user.id
              (newSubscription fid now o gs user) rfl hinv
            rw [he]
            constructor
            · intro db' hdb'
              simp only [List.mem_cons, List.not_mem_nil, or_false] at hdb'
              rcases hdb' with rfl | rfl | rfl
              · exact key
              · rw [verifyDB2_subscriptions]
                exact key
              · rw [verifyDB3_subscriptions]
                exact key
            · show atMostOneActiveSubs
                (verifyDB3 w (newSubscription fid now o gs user) user o now).subscriptions
              rw [verifyDB3_subscriptions]
              exact key
  · intro cfg now fh fo cu pay w hinv
    rcases (subscribe_db_shape cfg now fh fo cu pay w).2.2.2 with h | ⟨sid, h⟩
    · rw [h]
      exact hinv
    · rw [h]
      exact atMostOneActiveSubs_cancelOne sid w.db.subscriptions hinv

/-- Claim C5 witness: the invariant hypothesis holds in `W5` (one ACTIVE
subscription) and the theorem applies there. -/
theorem claim_C5_witness :
    atMostOneActiveSubs W5.db.subscriptions ∧
    (∀ db' ∈ (verify_payment cfg0 1000 "s2" pv0 W5).2.2,
      atMostOneActiveSubs db'.subscriptions) ∧
    atMostOneActiveSubs (verify_payment cfg0 1000 "s2" pv0 W5).2.1.db.subscriptions := by
  refine ⟨by decide, ?_⟩
  exact claim_C5.1 cfg0 1000 "s2" pv0 W5 (by decide)

/-- Claim C3 (amended): `verify_payment` is not one transaction — it commits
three snapshots — but a successful call does leave the final committed state
consistent: the verified order is PAID, the fresh subscription is ACTIVE and
points at it, and the final world equals the last commit. -/
theorem claim_C3 : ∀ (cfg : Config) (now : Int) (fid : String) (pv : PaymentVerifySchema)
    (w : World),
    (verify_payment cfg now fid pv w).1 = VerifyResult.success →
    ∃ o, w.db.orders.find? (fun x => x.payment_id == pv.razorpay_subscription_id) = some o ∧
      (verify_payment cfg now fid pv w).2.2.length = 3 ∧
      (verify_payment cfg now fid pv w).2.2.getLast? =
        some (verify_payment cfg now fid pv w).2.1.db ∧
      (∀ x ∈ (verify_payment cfg now fid pv w).2.1.db.orders, x.id = o.id →
        x.status = PaymentStatus.paid) ∧
      (∃ s ∈ (verify_payment cfg now fid pv w).2.1.db.subscriptions,
        s.id = fid ∧ s.order = o.id ∧ s.status = SubscriptionStatus.active) := by
  intro cfg now fid pv w hres
  cases hord : w.db.orders.find? (fun x => x.payment_id == pv.razorpay_subscription_id) with
  | none => simp [verify_payment, hord] at hres
  | some o =>
    by_cases hsig : (hmacHex cfg.razorpay_key_secret
        (pv.razorpay_payment_id ++ "|" ++ pv.razorpay_subscription_id) !=
          pv.razorpay_signature) = true
    · simp [verify_payment, hord, hsig] at hres
    · cases hgw : w.gateway.subs.find? (fun s => s.id == pv.razorpay_subscription_id) with
      | none => simp [verify_payment, hord, hsig, hgw] at hres
      | some gs =>
        cases huser : w.db.users.find? (fun u => u.id == o.user) with
        | none => simp [verify_payment, hord, hsig, hgw, huser] at hres
        | some user =>
          rw [Bool.not_eq_true] at hsig
          have he := verify_payment_success_eq cfg now fid pv w o gs user hord hsig hgw huser
          rw [he]
          refine ⟨o, rfl, rfl, rfl, ?_, ?_⟩
          · intro x hx hid
            exact status_of_mem_setOrderStatus
              (verifyDB1 w (newSubscription fid now o gs user) user) o.id PaymentStatus.paid
              x hx hid
          · refine ⟨newSubscription fid now o gs user, ?_, rfl, rfl, rfl⟩
            show newSubscription fid now o gs user ∈
              (verifyDB3 w (newSubscription fid now o gs user) user o now).subscriptions
            rw [verifyDB3_subscriptions]
            exact List.mem_append_right _ (List.mem_singleton.mpr rfl)

/-- Claim C3 witness: on `W1` with a pending order and a valid signature the
verification succeeds, so the amended conclusion holds there. -/
theorem claim_C3_witness :
    (verify_payment cfg0 1000 "s2" pv0 (W1 .pending 3)).1 = VerifyResult.success ∧
    ∃ o, (W1 .pending 3).db.orders.find?
        (fun x => x.payment_id == pv0.razorpay_subscription_id) = some o ∧
      (verify_payment cfg0 1000 "s2" pv0 (W1 .pending 3)).2.2.length = 3 ∧
      (verify_payment cfg0 1000 "s2" pv0 (W1 .pending 3)).2.2.getLast? =
        some (verify_payment cfg0 1000 "s2" pv0 (W1 .pending 3)).2.1.db ∧
      (∀ x ∈ (verify_payment cfg0 1000 "s2" pv0 (W1 .pending 3)).2.1.db.orders,
        x.id = o.id → x.status = PaymentStatus.paid) ∧
      (∃ s ∈ (verify_payment cfg0 1000 "s2" pv0 (W1 .pending 3)).2.1.db.subscriptions,
        s.id = "s2" ∧ s.order = o.id ∧ s.status = SubscriptionStatus.active) :=
  ⟨rfl, claim_C3 cfg0 1000 "s2" pv0 (W1 .pending 3) rfl⟩

/-! ## Claim C7 -/

theorem applyCouponFilter_iff (now : Int) (code : String) (c : Coupon) :
    applyCouponFilter now code c = true ↔
      (c.code = pyUpper code ∧ c.is_active = true ∧
       (∃ t, c.valid_until = some t ∧ now < t) ∧
       (c.max_uses = none ∨ ∃ m, c.max_uses = some m ∧ c.used_count < m)) := by
  unfold applyCouponFilter
  cases hu : c.valid_until <;> cases hm : c.max_uses <;>
    simp [hu, hm, Bool.and_eq_true, and_assoc]

theorem subscribeCouponFilter_iff (now : Int) (code : String) (c : Coupon) :
    subscribeCouponFilter now code c = true ↔
      (c.code = code ∧ c.is_active = true ∧ ∃ t, c.valid_until = some t ∧ now < t) := by
  unfold subscribeCouponFilter
  cases hu : c.valid_until <;> simp [hu, Bool.and_eq_true, and_assoc]

/-- Claim C7 (amended): coupon acceptance, exactly as the code implements it.
Preview (`apply_coupon`) accepts iff some coupon matches the uppercased input
code, is active, has a `valid_until` that is set and strictly later than now
(a missing `valid_until` rejects — not unbounded), and has no exhausted cap;
purchase (`subscribe`'s filter) matches the code case-sensitively and checks
neither the cap nor anything else.  Neither site consults `valid_from` or
prior redemptions (`coupon_users`). -/
theorem claim_C7 :
    (∀ (cfg : Config) (now : Int) (plan_name code : String) (w : World),
      (apply_coupon cfg now plan_name code w = ApplyCouponResult.invalidOrExpiredCoupon ↔
        ¬ ∃ c ∈ w.db.coupons, (c.code = pyUpper code ∧ c.is_active = true ∧
          (∃ t, c.valid_until = some t ∧ now < t) ∧
          (c.max_uses = none ∨ ∃ m, c.max_uses = some m ∧ c.used_count < m)))) ∧
    (∀ (now : Int) (code : String) (w : World),
      ((w.db.coupons.find? (subscribeCouponFilter now code)).isSome ↔
        ∃ c ∈ w.db.coupons, c.code = code ∧ c.is_active = true ∧
          ∃ t, c.valid_until = some t ∧ now < t)) := by
  constructor
  · intro cfg now plan_name code w
    cases hc : w.db.coupons.find? (applyCouponFilter now code) with
    | none =>
      have hnone := List.find?_eq_none.mp hc
      simp only [apply_coupon, hc, true_iff]
      rintro ⟨c, hcmem, hcprop⟩
      exact hnone c hcmem ((applyCouponFilter_iff now code c).mpr hcprop)
    | some c =>
      have hcmem := List.mem_of_find?_eq_some hc
      have hcp := List.find?_some hc
      have hex : ∃ c ∈ w.db.coupons, (c.code = pyUpper code ∧ c.is_active = true ∧
          (∃ t, c.valid_until = some t ∧ now < t) ∧
          (c.max_uses = none ∨ ∃ m, c.max_uses = some m ∧ c.used_count < m)) :=
        ⟨c, hcmem, (applyCouponFilter_iff now code c).mp hcp⟩
      have hne : apply_coupon cfg now plan_name code w ≠
          ApplyCouponResult.invalidOrExpiredCoupon := by
        cases hplan : (plans cfg).find? (fun p => pyLower p.1 == pyLower plan_name) with
        | none => simp [apply_coupon, hc, hplan]
        | some plan =>
          cases hamt : lookupAmount w.gateway.plan_amounts plan.2 with
          | none => simp [apply_coupon, hc, hplan, hamt]
          | some amount => simp [apply_coupon, hc, hplan, hamt]
      exact ⟨fun h => absurd h hne, fun h => absurd hex h⟩
  · intro now code w
    rw [List.find?_isSome]
    constructor
    · rintro ⟨c, hm, hp⟩
      exact ⟨c, hm, (subscribeCouponFilter_iff now code c).mp hp⟩
    · rintro ⟨c, hm, hp⟩
      exact ⟨c, hm, (subscribeCouponFilter_iff now code c).mpr hp⟩

/-- Claim C7 (counterexample): in `W7` the account `u1` has already redeemed
coupon `c1` (`("c1", "u1")` is in `coupon_users`), the code is stored as
`SAVE10`, and yet the preview accepts the coupon (no `AlreadyRedeemed`
check exists); meanwhile the purchase-side lookup, claimed case-insensitive,
rejects the lowercase spelling that the preview accepts. -/
theorem claim_C7_counterexample :
    ("c1", "u1") ∈ W7.db.coupon_users ∧
    (W7.db.coupons.map (fun c => c.id)) = ["c1"] ∧
    apply_coupon cfg0 0 "doctor" "save10" W7 = ApplyCouponResult.success 999 99 900 ∧
    W7.db.coupons.find? (subscribeCouponFilter 0 "save10") = none ∧
    (W7.db.coupons.find? (subscribeCouponFilter 0 "SAVE10")).isSome = true := by
  decide

/-! ## Claim C8 -/

/-- Claim C8 (amended): the upgrade-path constraints of the purchase
endpoint are enforced only when the account has an ACTIVE subscription: in
that case a premium-tier subject gets `alreadyOnHighestPlan` and a
doctor-tier subject requesting anything other than premium gets
`canOnlyUpgradeToPremium`; without an active subscription no tier constraint
is applied at all. -/
theorem claim_C8 : ∀ (cfg : Config) (now : Int) (fh fo uid : String)
    (pay : PaymentCreateSchema) (w : World) (user : UserAccount) (s : Subscription)
    (plan : String × String),
    w.db.users.find? (fun u => u.id == uid) = some user →
    w.db.subscriptions.find?
      (fun x => x.user == user.id && x.status == SubscriptionStatus.active) = some s →
    (plans cfg).find? (fun p => pyLower p.1 == pyLower pay.plan) = some plan →
    ((user.account_type = "premium" →
       (subscribe cfg now fh fo (some uid) pay w).1 = SubscribeResult.alreadyOnHighestPlan) ∧
     (user.account_type = "doctor" → pyLower pay.plan ≠ "premium" →
       (subscribe cfg now fh fo (some uid) pay w).1 =
         SubscribeResult.canOnlyUpgradeToPremium)) := by
  intro cfg now fh fo uid pay w user s plan huser hact hplan
  constructor
  · intro hprem
    simp [subscribe, huser, hact, hplan, hprem]
  · intro hdoc hne
    simp [subscribe, huser, hact, hplan, hdoc, hne]

/-- Claim C8 (counterexample): a premium-tier user with no active
subscription purchases the lower `doctor` plan through the purchase endpoint
and gets success, not `AlreadyAtMaxTier` — the tier check only runs when an
active subscription exists. -/
theorem claim_C8_counterexample :
    (W8.db.users.map (fun u => u.account_type)) = ["premium"] ∧
    W8.db.subscriptions = [] ∧
    (subscribe cfg0 0 "sub_9" "o9" (some "u1")
      { plan := "doctor", coupon := none, plan_type := "monthly" } W8).1 =
      SubscribeResult.success "sub_9" 999 := by
  decide

/-- Claim C8 witness: a doctor-tier user with an ACTIVE subscription asking
for the `doctor` plan again is refused with `canOnlyUpgradeToPremium`. -/
theorem claim_C8_witness :
    (subscribe cfg0 0 "sub_9" "o9" (some "u1")
      { plan := "doctor", coupon := none, plan_type := "monthly" } W8a).1 =
      SubscribeResult.canOnlyUpgradeToPremium :=
  (claim_C8 cfg0 0 "sub_9" "o9" "u1"
    { plan := "doctor", coupon := none, plan_type := "monthly" } W8a
    { id := "u1", user_type := "doctor", account_type := "doctor", credits := 150,
      credit_expiry := none, last_credit_updated_at := none }
    { id := "s1", user := "u1", order := "o0", start_date := 0, end_date := 5000000,
      status := SubscriptionStatus.active }
    ("doctor", "plan_doc") rfl rfl rfl).2 rfl (by decide)

/-! ## Claim C10 -/

theorem grantUser_id (o : Order) (now e : Int) (u : UserAccount) :
    (grantUser o now e u).id = u.id := by
  unfold grantUser
  by_cases h1 : (o.plan == "doctor") = true <;>
    by_cases h2 : (o.plan == "premium") = true <;> simp [h1, h2]

theorem grantUser_credit_expiry (o : Order) (now e : Int) (u : UserAccount) :
    (grantUser o now e u).credit_expiry = some e := by
  unfold grantUser
  by_cases h1 : (o.plan == "doctor") = true <;>
    by_cases h2 : (o.plan == "premium") = true <;> simp [h1, h2]

/-- Claim C10: the purchase endpoint always asks the gateway for quantity 1
(`1 if plan_type == "yearly" else 1`), whatever the cadence; consequently a
later successful verification of such a handle (gateway quantity 1, not 12)
computes a 30-day duration: the fresh subscription ends at now + 30 days and
the account's credit expiry is set to the same instant — even for a yearly
purchase. -/
theorem claim_C10 :
    (∀ (cfg : Config) (now : Int) (fh fo : String) (cu : Option String)
       (pay : PaymentCreateSchema) (w : World) (sid : String) (amt : Int),
      (subscribe cfg now fh fo cu pay w).1 = SubscribeResult.success sid amt →
      ∃ gs, (subscribe cfg now fh fo cu pay w).2.gateway.subs = w.gateway.subs ++ [gs] ∧
        gs.id = fh ∧ gs.quantity = 1) ∧
    (∀ (cfg : Config) (now : Int) (fid : String) (pv : PaymentVerifySchema) (w : World)
       (o : Order) (gs : GatewaySub) (user : UserAccount),
      w.db.orders.find? (fun x => x.payment_id == pv.razorpay_subscription_id) = some o →
      w.gateway.subs.find? (fun s => s.id == pv.razorpay_subscription_id) = some gs →
      w.db.users.find? (fun u => u.id == o.user) = some user →
      gs.quantity = 1 →
      (verify_payment cfg now fid pv w).1 = VerifyResult.success →
      (∃ s ∈ (verify_payment cfg now fid pv w).2.1.db.subscriptions,
        s.id = fid ∧ s.end_date = addDays now 30 ∧ s.status = SubscriptionStatus.active) ∧
      (∀ u ∈ (verify_payment cfg now fid pv w).2.1.db.users, u.id = user.id →
        u.credit_expiry = some (addDays now 30))) := by
  constructor
  · intro cfg now fh fo cu pay w sid amt hres
    cases cu with
    | none => simp [subscribe] at hres
    | some uid =>
      cases huser : w.db.users.find? (fun u => u.id == uid) with
      | none => simp [subscribe, huser] at hres
      | some user =>
        cases hplan : (plans cfg).find? (fun p => pyLower p.1 == pyLower pay.plan) with
        | none => simp [subscribe, huser, hplan] at hres
        | some plan =>
          cases hact : w.db.subscriptions.find?
              (fun s => s.user == user.id && s.status == SubscriptionStatus.active) with
          | none =>
            cases hc : pay.coupon with
            | none =>
              cases hamt : lookupAmount w.gateway.plan_amounts plan.2 with
              | none => simp [subscribe, huser, hplan, hact, hc, hamt] at hres
              | some amount =>
                refine ⟨gatewayIntent fh plan.2 pay.plan_type, ?_, rfl, ?_⟩
                · simp [subscribe, gatewayIntent, huser, hplan, hact, hc, hamt]
                · simp [gatewayIntent]
            | some code =>
              cases hcp : w.db.coupons.find? (subscribeCouponFilter now code) with
              | none => simp [subscribe, huser, hplan, hact, hc, hcp] at hres
              | some c =>
                cases hamt : lookupAmount w.gateway.plan_amounts plan.2 with
                | none => simp [subscribe, huser, hplan, hact, hc, hcp, hamt] at hres
                | some amount =>
                  refine ⟨gatewayIntent fh plan.2 pay.plan_type, ?_, rfl, ?_⟩
                  · simp [subscribe, gatewayIntent, huser, hplan, hact, hc, hcp, hamt]
                  · simp [gatewayIntent]
          | some s =>
            by_cases hat1 : (user.account_type == "premium") = true
            · simp [subscribe, huser, hplan, hact, hat1] at hres
            · by_cases hat2 :
                (user.account_type == "doctor" && pyLower pay.plan != "premium") = true
              · simp [subscribe, huser, hplan, hact, hat1, hat2] at hres
              · cases hc : pay.coupon with
                | none =>
                  cases hamt : lookupAmount w.gateway.plan_amounts plan.2 with
                  | none => simp [subscribe, huser, hplan, hact, hat1, hat2, hc, hamt] at hres
                  | some amount =>
                    refine ⟨gatewayIntent fh plan.2 pay.plan_type, ?_, rfl, ?_⟩
                    · simp [subscribe, gatewayIntent, huser, hplan, hact, hat1, hat2, hc, hamt]
                    · simp [gatewayIntent]
                | some code =>
                  cases hcp : w.db.coupons.find? (subscribeCouponFilter now code) with
                  | none => simp [subscribe, huser, hplan, hact, hat1, hat2, hc, hcp] at hres
                  | some c =>
                    cases hamt : lookupAmount w.gateway.plan_amounts plan.2 with
                    | none =>
                      simp [subscribe, huser, hplan, hact, hat1, hat2, hc, hcp, hamt] at hres
                    | some amount =>
                      refine ⟨gatewayIntent fh plan.2 pay.plan_type, ?_, rfl, ?_⟩
                      · simp [subscribe, gatewayIntent, huser, hplan, hact, hat1, hat2, hc, hcp, hamt]
                      · simp [gatewayIntent]
  · intro cfg now fid pv w o gs user hord hgw huser hq hres
    by_cases hsig : (hmacHex cfg.razorpay_key_secret
        (pv.razorpay_payment_id ++ "|" ++ pv.razorpay_subscription_id) !=
          pv.razorpay_signature) = true
    · simp [verify_payment, hord, hsig] at hres
    · rw [Bool.not_eq_true] at hsig
      have he := verify_payment_success_eq cfg now fid pv w o gs user hord hsig hgw huser
      rw [he]
      have hend : (newSubscription fid now o gs user).end_date = addDays now 30 := by
        simp [newSubscription, hq]
      constructor
      · refine ⟨newSubscription fid now o gs user, ?_, rfl, hend, rfl⟩
        show newSubscription fid now o gs user ∈
          (verifyDB3 w (newSubscription fid now o gs user) user o now).subscriptions
        rw [verifyDB3_subscriptions]
        exact List.mem_append_right _ (List.mem_singleton.mpr rfl)
      · intro u hu hid
        have huq : u = grantUser o now (newSubscription fid now o gs user).end_date user := by
          refine eq_of_mem_setUser (verifyDB2 w (newSubscription fid now o gs user) user o)
            (grantUser o now (newSubscription fid now o gs user).end_date user) u hu ?_
          rw [grantUser_id]
          exact hid
        rw [huq, grantUser_credit_expiry, hend]

/-- Claim C10 witness: a yearly purchase through `/payment/create` on `W10`
creates the gateway subscription with quantity 1, and its verification ends
the subscription (and the credit expiry) 30 days after verification time. -/
theorem claim_C10_witness :
    ((subscribe cfg0 0 "sub_1" "o1" (some "u1")
        { plan := "doctor", coupon := none, plan_type := "yearly" } W10).1 =
      SubscribeResult.success "sub_1" 999 ∧
     ∃ gs, (subscribe cfg0 0 "sub_1" "o1" (some "u1")
        { plan := "doctor", coupon := none, plan_type := "yearly" } W10).2.gateway.subs =
        W10.gateway.subs ++ [gs] ∧ gs.id = "sub_1" ∧ gs.quantity = 1) ∧
    ((verify_payment cfg0 5000 "s1" pv0 (subscribe cfg0 0 "sub_1" "o1" (some "u1")
        { plan := "doctor", coupon := none, plan_type := "yearly" } W10).2).1 =
      VerifyResult.success ∧
     (∃ s ∈ (verify_payment cfg0 5000 "s1" pv0 (subscribe cfg0 0 "sub_1" "o1" (some "u1")
        { plan := "doctor", coupon := none, plan_type := "yearly" } W10).2).2.1.db.subscriptions,
        s.id = "s1" ∧ s.end_date = addDays 5000 30 ∧ s.status = SubscriptionStatus.active)) := by
  refine ⟨⟨rfl, claim_C10.1 cfg0 0 "sub_1" "o1" (some "u1")
    { plan := "doctor", coupon := none, plan_type := "yearly" } W10 "sub_1" 999 rfl⟩,
    rfl, ?_⟩
  exact (claim_C10.2 cfg0 5000 "s1" pv0 (subscribe cfg0 0 "sub_1" "o1" (some "u1")
    { plan := "doctor", coupon := none, plan_type := "yearly" } W10).2
    { id := "o1", user := "u1", plan := "doctor", amount := 999, discount_amount := 0,
      final_amount := 999, payment_id := "sub_1", status := PaymentStatus.pending }
    { id := "sub_1", plan_id := "plan_doc", quantity := 1, total_count := 12 }
    { id := "u1", user_type := "doctor", account_type := "free", credits := 3,
      credit_expiry := none, last_credit_updated_at := none }
    rfl rfl rfl rfl rfl).1

end Backupdoc
